import Mathlib

/-!
Verification of the goal-state synchronization logic of FanslyGoalManager
(`FanslyGoalManager.py`), a single-file GUI client that manages fundraising
"goals" through an HTTP API.

Shallow embedding: each button handler of the `GoalManager` class is embedded
as a pure Lean function.  Network responses are inputs (a status code, or an
`Except` carrying the decoded goal list), and the observable behaviour of a
handler is returned as a trace of `Action`s: the HTTP requests it issues, the
modals it shows, and whether it triggers a goal refresh (`fetch_goals`).
Python machine-independent `int` is embedded as `Int`; Python `//` (floor
division) as `Int.fdiv`; Python `str.strip()` as `pystrip`; Python `int(str)`
as `pyParseInt`.
-/

namespace FanslyGoalManager

/-- A goal record as delivered by `GET /chatroom/goals` and cached in
`self.goals`.  Fields the Python code reads with mandatory indexing
(`g["id"]`, `g["accountId"]`, `g["goalAmount"]`, `g["label"]`,
`g["description"]` in `reset_goal`) are total; fields it only ever reads
with `g.get(key, default)` are `Option`s, so that the `.getD` in the
embedding mirrors the Python default exactly. -/
structure Goal where
  id : String
  accountId : String
  goalAmount : Int
  label : String
  description : String
  currentAmount : Option Int := none
  deletedAt : Option Int := none
  status : Option Int := none
  type : Option Int := none
  version : Option Int := none
deriving Repr, DecidableEq

/-- The staging buffer: the `amount_in`, `label_in`, `desc_in` input widgets.
The amount is raw text, parsed on use. -/
structure Buffer where
  amount : String
  label : String
  description : String
deriving Repr, DecidableEq

/-- Payload of `POST /chatroom/goals` (create), built by `send_goal`,
`reset_goal` and `save_preset` (a stored preset has exactly this shape). -/
structure CreatePayload where
  chatRoomId : String
  type : Int
  goalAmount : Int
  label : String
  description : String
deriving Repr, DecidableEq

/-- Full-record payload of `POST /chatroom/goal/update`, used for both true
updates and soft deletes. -/
structure UpdatePayload where
  id : String
  chatRoomId : String
  accountId : String
  currentAmount : Int
  deletedAt : Int
  description : String
  goalAmount : Int
  label : String
  status : Int
  type : Int
  version : Int
deriving Repr, DecidableEq

/-- Observable steps of a handler: outgoing HTTP requests, user-facing
modals, and invocations of `fetch_goals` (a registry refresh). -/
inductive Action where
  /-- `requests.post(CREATE_URL, json=pl)` -/
  | postCreate (pl : CreatePayload)
  /-- `requests.post(UPDATE_URL, json=pl)` -/
  | postUpdate (pl : UpdatePayload)
  /-- `requests.get(BASE_URL, params=...)` issued directly (in `delete_all_goals`) -/
  | listGoals
  /-- `self.fetch_goals()` invoked to refresh the registry -/
  | refreshGoals
  /-- `QMessageBox.warning(...)` -/
  | warnModal (msg : String)
  /-- `QMessageBox.critical(...)` -/
  | errorModal (msg : String)
  /-- `QMessageBox.information(...)` -/
  | infoModal (msg : String)
  /-- `save_config(...)` writes the config file -/
  | saveConfig
  /-- an uncaught Python `IndexError` (list index out of range) -/
  | indexError
deriving Repr, DecidableEq

/-- Models Python `str.strip()`: removes leading and trailing whitespace
(restricted to ASCII whitespace, which is all the program ever feeds it). -/
def pystrip (s : String) : String :=
  ⟨((s.data.dropWhile Char.isWhitespace).reverse.dropWhile Char.isWhitespace).reverse⟩

/-- `true` on `'0'`..`'9'`. -/
def isAsciiDigit (c : Char) : Bool :=
  '0' ≤ c && c ≤ '9'

/-- Numeric value of a digit string. -/
def digitsToNat (cs : List Char) : Nat :=
  cs.foldl (fun a c => a * 10 + (c.toNat - '0'.toNat)) 0

/-- Tail of a valid digit run: digits, with each underscore standing
immediately between two digits (so no trailing or doubled underscore). -/
def pyDigitsTail : List Char → Bool
  | [] => true
  | '_' :: rest =>
    (match rest with
     | [] => false
     | d :: _ => isAsciiDigit d) && pyDigitsTail rest
  | c :: rest => isAsciiDigit c && pyDigitsTail rest

/-- Valid digit run for Python `int()`: one or more decimal digits, possibly
grouped by single underscores (`1_000`); must start with a digit. -/
def isPyDigitRun : List Char → Bool
  | [] => false
  | c :: rest => isAsciiDigit c && pyDigitsTail rest

/-- Models Python `int(str)`: optional surrounding whitespace, an optional
sign, then a digit run possibly grouped by underscores; anything else raises
`ValueError` (here: `none`).  Restricted to ASCII digits and whitespace,
which is all the program's inputs ever contain. -/
def pyParseInt (s : String) : Option Int :=
  let cs := (pystrip s).data
  match cs with
  | [] => none
  | c :: rest =>
    let sign : Int := if c = '-' then -1 else 1
    let ds := if c = '-' || c = '+' then rest else cs
    if isPyDigitRun ds then
      some (sign * (digitsToNat (ds.filter (fun d => d ≠ '_')) : Int))
    else none

/-- Display conversion used everywhere a stored amount is shown:
Python `a // 1000` (floor division). -/
def displayAmount (a : Int) : Int :=
  Int.fdiv a 1000

/-- Entry conversion used everywhere a parsed dollar amount enters a
payload: `amt * 1000`. -/
def entryAmount (n : Int) : Int :=
  n * 1000

/-- Models Python `r.status_code // 100 == 2`. -/
def is2xx (status : Nat) : Bool :=
  status / 100 = 2

/-- `GoalManager.fetch_goals`: on success the registry becomes the first 3
items of the response (`r.json().get("response", [])[:3]`); on a transport
error or non-2xx status (`raise_for_status`) the registry is cleared and the
error text is surfaced in a critical modal.  Returns the new `self.goals`
and the surfaced error, if any. -/
def fetch_goals (listResp : Except String (List Goal)) :
    List Goal × Option String :=
  match listResp with
  | .error e => ([], some e)
  | .ok data => (data.take 3, none)

/-- `GoalManager.load_selected`: copies the checked goal's fields into the
staging buffer; a cursor that is unset (`idx < 0`) or out of range is a
no-op. -/
def load_selected (goals : List Goal) (idx : Int) (buf : Buffer) : Buffer :=
  if idx < 0 ∨ (goals.length : Int) ≤ idx then buf
  else
    match goals[idx.toNat]? with
    | none => buf  -- unreachable: the guard above bounds idx
    | some g =>
      { amount := toString (displayAmount g.goalAmount)
        label := g.label
        description := g.description }

/-- The creation payload built by `send_goal`: the session's room id, type 0,
the entered amount times 1000, and the stripped label/description. -/
def send_goal_payload (chatId : String) (amt : Int) (buf : Buffer) : CreatePayload :=
  { chatRoomId := chatId
    type := 0
    goalAmount := entryAmount amt
    label := pystrip buf.label
    description := pystrip buf.description }

/-- `GoalManager.send_goal`: parse the amount (warn and abort on failure),
post the creation payload, refresh on 2xx, otherwise show the status in a
critical modal. -/
def send_goal (chatId : String) (buf : Buffer) (status : Nat) : List Action :=
  match pyParseInt buf.amount with
  | none => [.warnModal "Enter whole dollars"]
  | some amt =>
    .postCreate (send_goal_payload chatId amt buf) ::
      (if is2xx status then [.refreshGoals] else [.errorModal (toString status)])

/-- The full-record update payload built by `update_goal`: new
label/description/amount from the staging buffer, everything else copied
from the cached record `g` (with the Python `g.get(key, default)` defaults),
and `chatRoomId` from the session. -/
def update_goal_payload (chatId : String) (g : Goal) (amt : Int) (buf : Buffer) :
    UpdatePayload :=
  { id := g.id
    chatRoomId := chatId
    accountId := g.accountId
    currentAmount := g.currentAmount.getD 0
    deletedAt := g.deletedAt.getD 0
    description := pystrip buf.description
    goalAmount := entryAmount amt
    label := pystrip buf.label
    status := g.status.getD 0
    type := g.type.getD 0
    version := g.version.getD 0 }

/-- `GoalManager.update_goal`: selection check, indexing, amount parse
(warn and abort on failure), then post the rebuilt record; refresh on 2xx,
critical modal otherwise. -/
def update_goal (chatId : String) (goals : List Goal) (idx : Int) (buf : Buffer)
    (status : Nat) : List Action :=
  if idx < 0 then [.warnModal "Select a goal first"]
  else
    match goals[idx.toNat]? with
    | none => [.indexError]  -- `self.goals[idx]` would raise
    | some g =>
      match pyParseInt buf.amount with
      | none => [.warnModal "Enter whole dollars"]
      | some amt =>
        .postUpdate (update_goal_payload chatId g amt buf) ::
          (if is2xx status then [.refreshGoals] else [.errorModal (toString status)])

/-- The soft-delete payload built identically in `delete_selected_goal`,
`delete_all_goals` and `reset_goal`: the cached record with `status = 1`
and `deletedAt` set to the current epoch-millisecond time `now`. -/
def soft_delete_payload (chatId : String) (g : Goal) (now : Int) : UpdatePayload :=
  { id := g.id
    chatRoomId := chatId
    accountId := g.accountId
    currentAmount := g.currentAmount.getD 0
    deletedAt := now
    description := g.description
    goalAmount := g.goalAmount
    label := g.label
    status := 1
    type := g.type.getD 0
    version := g.version.getD 0 }

/-- `GoalManager.delete_selected_goal`: selection check, soft-delete post,
refresh on 2xx, critical modal otherwise. -/
def delete_selected_goal (chatId : String) (goals : List Goal) (idx : Int)
    (now : Int) (status : Nat) : List Action :=
  if idx < 0 then [.warnModal "Select a goal first"]
  else
    match goals[idx.toNat]? with
    | none => [.indexError]
    | some g =>
      .postUpdate (soft_delete_payload chatId g now) ::
        (if is2xx status then [.refreshGoals]
         else [.errorModal ("Delete failed: " ++ toString status)])

/-- The re-creation payload built by `reset_goal` from the cached record:
same label/description/goalAmount, no `currentAmount` (progress restarts at
zero on the server). -/
def reset_create_payload (chatId : String) (g : Goal) : CreatePayload :=
  { chatRoomId := chatId
    type := 0
    goalAmount := g.goalAmount
    label := g.label
    description := g.description }

/-- `GoalManager.reset_goal`: soft-delete the selected record; if that post
is non-2xx, surface the failure and stop; otherwise post the re-creation
payload, refreshing on 2xx and surfacing the create failure otherwise. -/
def reset_goal (chatId : String) (goals : List Goal) (idx : Int) (now : Int)
    (delStatus createStatus : Nat) : List Action :=
  if idx < 0 then [.warnModal "Select a goal first"]
  else
    match goals[idx.toNat]? with
    | none => [.indexError]
    | some g =>
      .postUpdate (soft_delete_payload chatId g now) ::
        (if !is2xx delStatus then
          [.errorModal ("Reset delete failed: " ++ toString delStatus)]
         else
          .postCreate (reset_create_payload chatId g) ::
            (if is2xx createStatus then [.refreshGoals]
             else [.errorModal ("Reset create failed: " ++ toString createStatus)]))

/-- The sequential soft-delete posts of `delete_all_goals`' loop over the
full (untruncated) item list; `now i` is the `int(time.time() * 1000)`
sampled in iteration `i`, counted from `i0`. -/
def delete_all_updates (chatId : String) (now : Nat → Int) :
    List Goal → Nat → List Action
  | [], _ => []
  | g :: gs, i =>
    .postUpdate (soft_delete_payload chatId g (now i)) ::
      delete_all_updates chatId now gs (i + 1)

/-- `GoalManager.delete_all_goals`: its own list GET (no `[:3]` truncation);
on failure an error modal and nothing else; on success one soft-delete post
per item — each response (`st i`) is discarded — then a refresh. -/
def delete_all_goals (chatId : String) (listResp : Except String (List Goal))
    (now : Nat → Int) (st : Nat → Nat) : List Action :=
  .listGoals ::
    match listResp with
    | .error e => [.errorModal e]
    | .ok items =>
      delete_all_updates chatId now items 0 ++ [.refreshGoals]

/-- A preset group/slot key as supplied to `save_preset`/`edit_preset`:
a Python `int` or an already-string key. -/
inductive PKey where
  | num (n : Int)
  | str (s : String)
deriving Repr, DecidableEq

/-- Python `str(key)`: the normalization applied on both save and lookup. -/
def PKey.toStr : PKey → String
  | .num n => toString n
  | .str s => s

/-- The in-memory `self.PRESETS` table: group key ↦ (slot key ↦ payload),
as string-keyed association lists. -/
abbrev PresetTable := List (String × List (String × CreatePayload))

/-- Dict write `d[k] = v`: replace the binding of `k` or append it. -/
def alistInsert {α : Type} (k : String) (v : α) :
    List (String × α) → List (String × α)
  | [] => [(k, v)]
  | (k₂, v₂) :: rest =>
    if k₂ = k then (k, v) :: rest else (k₂, v₂) :: alistInsert k v rest

/-- Dict read `d.get(k)`. -/
def alistGet {α : Type} (k : String) : List (String × α) → Option α
  | [] => none
  | (k₂, v₂) :: rest => if k₂ = k then some v₂ else alistGet k rest

/-- `GoalManager.save_preset`: parse the amount (warn and abort on failure),
then `PRESETS.setdefault(str(group), {})[str(slot)] = payload`, persist the
config and confirm.  Returns the new table and the trace. -/
def save_preset (chatId : String) (tbl : PresetTable) (group slot : PKey)
    (buf : Buffer) : PresetTable × List Action :=
  match pyParseInt buf.amount with
  | none => (tbl, [.warnModal "Enter whole dollars"])
  | some amt =>
    let gk := group.toStr
    let sk := slot.toStr
    let pl : CreatePayload :=
      { chatRoomId := chatId
        type := 0
        goalAmount := entryAmount amt
        label := pystrip buf.label
        description := pystrip buf.description }
    let grp := (alistGet gk tbl).getD []
    (alistInsert gk (alistInsert sk pl grp) tbl,
     [.saveConfig, .infoModal ("Group " ++ gk ++ " Slot " ++ sk)])

/-- `GoalManager.edit_preset`: look up `PRESETS.get(str(group), {}).get(str(slot))`;
warn and leave the buffer alone if empty, otherwise copy the preset into the
staging buffer (amount shown as `goalAmount // 1000`). -/
def edit_preset (tbl : PresetTable) (group slot : PKey) (buf : Buffer) :
    Buffer × List Action :=
  match alistGet slot.toStr ((alistGet group.toStr tbl).getD []) with
  | none => (buf, [.warnModal "No preset"])
  | some pl =>
    ({ amount := toString (displayAmount pl.goalAmount)
       label := pl.label
       description := pl.description }, [])

/-! ### Helper lemmas and sample data -/

/-- A concrete sample goal for instantiating theorems. -/
def mkGoal (i : String) : Goal :=
  { id := i
    accountId := "acct"
    goalAmount := 5000
    label := "lbl"
    description := "dsc"
    currentAmount := some 250
    deletedAt := some 0
    status := some 0
    type := some 0
    version := some 7 }

/-- Entering a whole-dollar amount and displaying it back is exact:
`(n * 1000) // 1000 = n`. -/
theorem displayAmount_entryAmount (n : Int) : displayAmount (entryAmount n) = n :=
  Int.mul_fdiv_cancel n (by decide)

/-- Reading back the key just written. -/
theorem alistGet_insert {α : Type} (k : String) (v : α) (l : List (String × α)) :
    alistGet k (alistInsert k v l) = some v := by
  induction l with
  | nil => simp [alistInsert, alistGet]
  | cons p rest ih =>
    obtain ⟨k₂, v₂⟩ := p
    by_cases h : k₂ = k <;> simp [alistInsert, alistGet, h, ih]

/-- The soft-delete loop posts one update per item, in order, with the
timestamp of the matching iteration. -/
theorem delete_all_updates_getElem (chatId : String) (now : Nat → Int)
    (items : List Goal) (i k : Nat) :
    (delete_all_updates chatId now items k)[i]? =
      items[i]?.map
        fun g => Action.postUpdate (soft_delete_payload chatId g (now (k + i))) := by
  induction items generalizing i k with
  | nil => simp [delete_all_updates]
  | cons g gs ih =>
    cases i with
    | zero => simp [delete_all_updates]
    | succ j =>
      have h := ih j (k + 1)
      simpa [delete_all_updates, Nat.add_assoc, Nat.add_comm 1 j] using h

/-- The soft-delete loop covers every item exactly once. -/
theorem delete_all_updates_length (chatId : String) (now : Nat → Int)
    (items : List Goal) (k : Nat) :
    (delete_all_updates chatId now items k).length = items.length := by
  induction items generalizing k with
  | nil => rfl
  | cons g gs ih => simp [delete_all_updates, ih]

/-! ### Claims -/

/-- C4: For every server response to the goal list query, including
responses with more than 3 items, the refresh operation stores at most the
first 3 results in the registry, so the registry never holds more than 3
goals. -/
theorem C4_refresh_truncates (listResp : Except String (List Goal)) :
    (fetch_goals listResp).1.length ≤ 3 ∧
      ∀ gs, listResp = .ok gs → (fetch_goals listResp).1 = gs.take 3 := by
  constructor
  · cases listResp with
    | error e => simp [fetch_goals]
    | ok gs =>
      simp only [fetch_goals, List.length_take]
      exact Nat.min_le_left _ _
  · rintro gs rfl
    rfl

/-- Witness for C4 at a 4-item response: only the first 3 are stored. -/
theorem C4_refresh_truncates_witness :
    (fetch_goals (Except.ok [mkGoal "1", mkGoal "2", mkGoal "3", mkGoal "4"])).1.length ≤ 3 ∧
    (fetch_goals (Except.ok [mkGoal "1", mkGoal "2", mkGoal "3", mkGoal "4"])).1
      = [mkGoal "1", mkGoal "2", mkGoal "3"] := by
  have h := C4_refresh_truncates (Except.ok [mkGoal "1", mkGoal "2", mkGoal "3", mkGoal "4"])
  exact ⟨h.1, by rw [h.2 _ rfl]; rfl⟩

/-- C8: For every refresh whose list request fails (transport error or
non-2xx status), the registry cache is cleared to empty, the error is
surfaced, and no partial state from the failed response is kept. -/
theorem C8_fetch_failure_clears (e : String) :
    fetch_goals (.error e) = ([], some e) :=
  rfl

/-- C3: Selecting a goal at a valid index copies that goal's label,
description, and `goalAmount // 1000` into the staging buffer exactly;
selecting with an unset or out-of-range index leaves the buffer unchanged. -/
theorem C3_select_copies (goals : List Goal) (idx : Int) (buf : Buffer) :
    (∀ g, ¬ idx < 0 → goals[idx.toNat]? = some g →
      load_selected goals idx buf =
        { amount := toString (displayAmount g.goalAmount)
          label := g.label
          description := g.description }) ∧
    ((idx < 0 ∨ (goals.length : Int) ≤ idx) → load_selected goals idx buf = buf) := by
  constructor
  · intro g hneg hget
    have hlt : idx.toNat < goals.length := by
      by_contra hle
      rw [List.getElem?_eq_none (Nat.le_of_not_lt hle)] at hget
      exact Option.noConfusion hget
    simp only [load_selected]
    rw [if_neg (by omega), hget]
  · intro h
    simp only [load_selected, if_pos h]

/-- Witness for C3: selecting index 0 of a one-goal registry fills the
buffer from that goal; index `-1` (nothing checked) is a no-op. -/
theorem C3_select_copies_witness :
    load_selected [mkGoal "1"] 0 { amount := "", label := "", description := "" }
      = { amount := "5", label := "lbl", description := "dsc" } ∧
    load_selected [mkGoal "1"] (-1) { amount := "", label := "", description := "" }
      = { amount := "", label := "", description := "" } := by
  constructor
  · have h := (C3_select_copies [mkGoal "1"] 0
      { amount := "", label := "", description := "" }).1 (mkGoal "1")
      (by decide) rfl
    rw [h]
    decide
  · exact (C3_select_copies [mkGoal "1"] (-1)
      { amount := "", label := "", description := "" }).2 (Or.inl (by decide))

/-- C6 (counterexample): display is Python floor division, not truncation
toward zero: the stored amount `-500` displays as `-1`, while truncating
division (`Int.tdiv`) yields `0`. -/
theorem C6_display_not_truncating :
    displayAmount (-500) = -1 ∧ Int.tdiv (-500) 1000 = 0 := by
  decide

/-- C6 (amended): entry multiplies by 1000 and display floor-divides by
1000, so entry-then-display is exact for every dollar amount `n ≥ 0`; a
stored amount that is not a multiple of 1000 displays lossily; and for
non-negative stored amounts floor division coincides with truncation toward
zero. -/
theorem C6_amount_roundtrip :
    (∀ n : Int, 0 ≤ n → displayAmount (entryAmount n) = n) ∧
    (∀ a : Int, a % 1000 ≠ 0 → entryAmount (displayAmount a) ≠ a) ∧
    (∀ a : Int, 0 ≤ a → displayAmount a = Int.tdiv a 1000) := by
  refine ⟨fun n _ => displayAmount_entryAmount n, fun a ha hcontra => ?_, fun a ha => ?_⟩
  · apply ha
    have hdvd : (1000 : Int) ∣ a := ⟨displayAmount a, by
      rw [← hcontra]
      simp [entryAmount, displayAmount, Int.mul_comm]⟩
    exact Int.emod_eq_zero_of_dvd hdvd
  · unfold displayAmount
    rw [Int.fdiv_eq_ediv _ (by decide), Int.tdiv_eq_ediv ha (by decide)]

/-- Witness for C6 (amended): `$7` survives a round trip; the stored amount
`5500` (not a multiple of 1000) cannot be reproduced from its display, and
its display agrees with truncating division. -/
theorem C6_amount_roundtrip_witness :
    displayAmount (entryAmount 7) = 7 ∧
    entryAmount (displayAmount 5500) ≠ 5500 ∧
    displayAmount 5500 = Int.tdiv 5500 1000 := by
  exact ⟨C6_amount_roundtrip.1 7 (by decide),
         C6_amount_roundtrip.2.1 5500 (by decide),
         C6_amount_roundtrip.2.2 5500 (by decide)⟩

/-- C5 (counterexample): saving then editing a preset does not reproduce the
staged label exactly when it carries surrounding whitespace — `save_preset`
strips it (`" hi "` comes back as `"hi"`). -/
theorem C5_roundtrip_strips_whitespace :
    (edit_preset
        (save_preset "room" [] (.num 1) (.num 1)
          { amount := "5", label := " hi ", description := "d" }).1
        (.num 1) (.num 1) { amount := "", label := "", description := "" }).1.label
      ≠ " hi " := by
  decide

/-- C5 (amended): for every group/slot key and every staging buffer with a
parseable integer amount, saving a preset and then editing that same preset
reproduces the parsed amount exactly and the label/description up to
stripping of leading/trailing whitespace (exactly, when the staged texts
carry none), regardless of whether the group/slot keys are supplied as
numbers or strings — keys are normalized to string form on save and
lookup. -/
theorem C5_preset_roundtrip (chatId : String) (tbl : PresetTable)
    (g s g₂ s₂ : PKey) (buf buf₂ : Buffer) (amt : Int)
    (hamt : pyParseInt buf.amount = some amt)
    (hg : g.toStr = g₂.toStr) (hs : s.toStr = s₂.toStr) :
    (edit_preset (save_preset chatId tbl g s buf).1 g₂ s₂ buf₂).1 =
      { amount := toString amt
        label := pystrip buf.label
        description := pystrip buf.description } := by
  simp only [save_preset, hamt, edit_preset, ← hg, ← hs, alistGet_insert,
    Option.getD_some, displayAmount_entryAmount]

/-- Witness for C5 (amended): a preset saved under numeric keys `(2, 3)` is
recovered under the string key `"2"` and numeric key `3`, reproducing the
staged values exactly. -/
theorem C5_preset_roundtrip_witness :
    (edit_preset
        (save_preset "room" [] (.num 2) (.str "3")
          { amount := "12", label := "lbl", description := "dsc" }).1
        (.str "2") (.num 3) { amount := "", label := "", description := "" }).1
      = { amount := "12", label := "lbl", description := "dsc" } := by
  have h := C5_preset_roundtrip "room" [] (.num 2) (.str "3") (.str "2") (.num 3)
    { amount := "12", label := "lbl", description := "dsc" }
    { amount := "", label := "", description := "" } 12 (by decide) (by decide) (by decide)
  rw [h]
  decide

/-- C7: For every create, update (with a goal selected), and preset-save
operation, a non-parseable amount makes the operation show the validation
modal and abort: the trace is exactly the warning — no network request, no
refresh — and the preset table is unchanged. -/
theorem C7_invalid_amount_aborts (chatId : String) (goals : List Goal)
    (idx : Int) (g : Goal) (buf : Buffer) (tbl : PresetTable) (gk sk : PKey)
    (st₁ st₂ : Nat)
    (hbad : pyParseInt buf.amount = none)
    (hidx : ¬ idx < 0) (hget : goals[idx.toNat]? = some g) :
    send_goal chatId buf st₁ = [.warnModal "Enter whole dollars"] ∧
    update_goal chatId goals idx buf st₂ = [.warnModal "Enter whole dollars"] ∧
    save_preset chatId tbl gk sk buf = (tbl, [.warnModal "Enter whole dollars"]) := by
  refine ⟨?_, ?_, ?_⟩ <;>
    simp [send_goal, update_goal, save_preset, hbad, hidx, hget]

/-- Witness for C7: the amount text `"12abc"` aborts all three operations. -/
theorem C7_invalid_amount_aborts_witness :
    send_goal "room" { amount := "12abc", label := "l", description := "d" } 200
      = [.warnModal "Enter whole dollars"] ∧
    update_goal "room" [mkGoal "1"] 0
        { amount := "12abc", label := "l", description := "d" } 200
      = [.warnModal "Enter whole dollars"] ∧
    save_preset "room" [] (.num 1) (.num 2)
        { amount := "12abc", label := "l", description := "d" }
      = ([], [.warnModal "Enter whole dollars"]) := by
  exact C7_invalid_amount_aborts "room" [mkGoal "1"] 0 (mkGoal "1")
    { amount := "12abc", label := "l", description := "d" } [] (.num 1) (.num 2)
    200 200 (by decide) (by decide) rfl

/-- C10: For every create, update and preset-save with a parseable amount,
the label and description placed in the outgoing payload (resp. the stored
preset) are the staging buffer's text with leading and trailing whitespace
stripped. -/
theorem C10_payloads_stripped (chatId : String) (goals : List Goal)
    (idx : Int) (g : Goal) (buf : Buffer) (tbl : PresetTable) (gk sk : PKey)
    (amt : Int) (st₁ st₂ : Nat)
    (hamt : pyParseInt buf.amount = some amt)
    (hidx : ¬ idx < 0) (hget : goals[idx.toNat]? = some g) :
    (send_goal chatId buf st₁).head?
      = some (.postCreate (send_goal_payload chatId amt buf)) ∧
    (send_goal_payload chatId amt buf).label = pystrip buf.label ∧
    (send_goal_payload chatId amt buf).description = pystrip buf.description ∧
    (update_goal chatId goals idx buf st₂).head?
      = some (.postUpdate (update_goal_payload chatId g amt buf)) ∧
    (update_goal_payload chatId g amt buf).label = pystrip buf.label ∧
    (update_goal_payload chatId g amt buf).description = pystrip buf.description ∧
    alistGet sk.toStr
        ((alistGet gk.toStr (save_preset chatId tbl gk sk buf).1).getD [])
      = some { chatRoomId := chatId, type := 0, goalAmount := entryAmount amt,
               label := pystrip buf.label, description := pystrip buf.description } := by
  refine ⟨?_, rfl, rfl, ?_, rfl, rfl, ?_⟩
  · simp [send_goal, hamt]
  · simp [update_goal, hidx, hget, hamt]
  · simp only [save_preset, hamt, alistGet_insert, Option.getD_some]

/-- Witness for C10: staged texts `" L "` and `" D "` go out stripped in
all three operations. -/
theorem C10_payloads_stripped_witness :
    (send_goal_payload "room" 5
        { amount := "5", label := " L ", description := " D " }).label = "L" ∧
    (update_goal_payload "room" (mkGoal "1") 5
        { amount := "5", label := " L ", description := " D " }).description = "D" ∧
    alistGet "2" ((alistGet "1"
        (save_preset "room" [] (.num 1) (.num 2)
          { amount := "5", label := " L ", description := " D " }).1).getD [])
      = some { chatRoomId := "room", type := 0, goalAmount := 5000,
               label := "L", description := "D" } := by
  have h := C10_payloads_stripped "room" [mkGoal "1"] 0 (mkGoal "1")
    { amount := "5", label := " L ", description := " D " } [] (.num 1) (.num 2)
    5 200 200 (by decide) (by decide) rfl
  exact ⟨by rw [h.2.1]; decide, by rw [h.2.2.2.2.2.1]; decide, by decide⟩

/-- C2: For every update of a selected goal with a parseable integer amount,
the first action is the update post; its payload carries the staging
buffer's (stripped) label and description and the amount times 1000 as
`goalAmount`, takes `chatRoomId` from the session, and copies `id`,
`accountId`, `currentAmount`, `status`, `type`, `version` and `deletedAt`
unchanged from the cached goal record (whenever the cached record carries
the field; `g.get`'s default fills it otherwise). -/
theorem C2_update_payload_fields (chatId : String) (goals : List Goal)
    (idx : Int) (g : Goal) (buf : Buffer) (amt : Int) (st : Nat)
    (hidx : ¬ idx < 0) (hget : goals[idx.toNat]? = some g)
    (hamt : pyParseInt buf.amount = some amt) :
    (update_goal chatId goals idx buf st).head?
      = some (.postUpdate (update_goal_payload chatId g amt buf)) ∧
    (update_goal_payload chatId g amt buf).label = pystrip buf.label ∧
    (update_goal_payload chatId g amt buf).description = pystrip buf.description ∧
    (update_goal_payload chatId g amt buf).goalAmount = amt * 1000 ∧
    (update_goal_payload chatId g amt buf).chatRoomId = chatId ∧
    (update_goal_payload chatId g amt buf).id = g.id ∧
    (update_goal_payload chatId g amt buf).accountId = g.accountId ∧
    (∀ v, g.currentAmount = some v →
      (update_goal_payload chatId g amt buf).currentAmount = v) ∧
    (∀ v, g.status = some v → (update_goal_payload chatId g amt buf).status = v) ∧
    (∀ v, g.type = some v → (update_goal_payload chatId g amt buf).type = v) ∧
    (∀ v, g.version = some v → (update_goal_payload chatId g amt buf).version = v) ∧
    (∀ v, g.deletedAt = some v → (update_goal_payload chatId g amt buf).deletedAt = v) := by
  refine ⟨by simp [update_goal, hidx, hget, hamt], rfl, rfl, rfl, rfl, rfl, rfl,
    ?_, ?_, ?_, ?_, ?_⟩ <;>
  · rintro v hv
    simp [update_goal_payload, hv]

/-- Witness for C2 at a concrete selected goal and staged `$12`. -/
theorem C2_update_payload_fields_witness :
    (update_goal "room" [mkGoal "1"] 0
        { amount := "12", label := " L ", description := " D " } 200).head?
      = some (.postUpdate
          { id := "1", chatRoomId := "room", accountId := "acct",
            currentAmount := 250, deletedAt := 0, description := "D",
            goalAmount := 12000, label := "L", status := 0, type := 0,
            version := 7 }) ∧
    (update_goal_payload "room" (mkGoal "1") 12
        { amount := "12", label := " L ", description := " D " }).currentAmount = 250 := by
  have h := C2_update_payload_fields "room" [mkGoal "1"] 0 (mkGoal "1")
    { amount := "12", label := " L ", description := " D " } 12 200
    (by decide) rfl (by decide)
  exact ⟨by rw [h.1]; decide, h.2.2.2.2.2.2.2.1 250 rfl⟩

/-- C1: For the compound reset of a selected goal, the soft-delete update is
issued first; a create is issued iff the delete returned 2xx; on a non-2xx
delete the trace is exactly the delete post and an error modal (no create,
no refresh); on a 2xx delete with a non-2xx create the trace is exactly the
delete post, the create post and an error modal (the failure is surfaced
and no compensating update is issued). -/
theorem C1_reset_sequencing (chatId : String) (goals : List Goal) (idx : Int)
    (g : Goal) (now : Int) (delStatus createStatus : Nat)
    (hidx : ¬ idx < 0) (hget : goals[idx.toNat]? = some g) :
    (reset_goal chatId goals idx now delStatus createStatus).head?
      = some (.postUpdate (soft_delete_payload chatId g now)) ∧
    ((∃ pl, Action.postCreate pl ∈ reset_goal chatId goals idx now delStatus createStatus)
      ↔ is2xx delStatus = true) ∧
    (is2xx delStatus = false →
      reset_goal chatId goals idx now delStatus createStatus =
        [.postUpdate (soft_delete_payload chatId g now),
         .errorModal ("Reset delete failed: " ++ toString delStatus)]) ∧
    (is2xx delStatus = true → is2xx createStatus = false →
      reset_goal chatId goals idx now delStatus createStatus =
        [.postUpdate (soft_delete_payload chatId g now),
         .postCreate (reset_create_payload chatId g),
         .errorModal ("Reset create failed: " ++ toString createStatus)]) := by
  cases hd : is2xx delStatus with
  | false =>
    refine ⟨?_, ?_, fun _ => ?_, fun h => absurd h (by simp)⟩ <;>
      simp [reset_goal, hidx, hget, hd]
  | true =>
    cases hc : is2xx createStatus with
    | false =>
      refine ⟨?_, ?_, fun h => absurd h (by simp), fun _ _ => ?_⟩ <;>
        simp [reset_goal, hidx, hget, hd, hc]
    | true =>
      refine ⟨?_, ?_, fun h => absurd h (by simp), fun _ h => absurd h (by simp)⟩ <;>
        simp [reset_goal, hidx, hget, hd, hc]

/-- Witness for C1: a failed delete (HTTP 500) yields exactly the delete
post and the error modal; a successful delete with failed create (HTTP 400)
yields delete post, create post and the create error modal. -/
theorem C1_reset_sequencing_witness :
    reset_goal "room" [mkGoal "1"] 0 99 500 200 =
      [.postUpdate (soft_delete_payload "room" (mkGoal "1") 99),
       .errorModal "Reset delete failed: 500"] ∧
    reset_goal "room" [mkGoal "1"] 0 99 200 400 =
      [.postUpdate (soft_delete_payload "room" (mkGoal "1") 99),
       .postCreate (reset_create_payload "room" (mkGoal "1")),
       .errorModal "Reset create failed: 400"] := by
  have h₁ := C1_reset_sequencing "room" [mkGoal "1"] 0 (mkGoal "1") 99 500 200
    (by decide) rfl
  have h₂ := C1_reset_sequencing "room" [mkGoal "1"] 0 (mkGoal "1") 99 200 400
    (by decide) rfl
  exact ⟨by rw [h₁.2.2.1 (by decide)]; decide, by rw [h₂.2.2.2 (by decide) (by decide)]; decide⟩

/-- C9: `delete_all_goals` is insensitive to the statuses of its update
posts (each failure is ignored); on a successful list fetch its trace is
the untruncated list GET, one soft-delete update per returned item in
order — the `i`-th carrying `status = 1` and the non-zero timestamp
`now i` — and a final refresh. -/
theorem C9_delete_all (chatId : String) (items : List Goal)
    (now : Nat → Int) (st st₂ : Nat → Nat)
    (hnow : ∀ i, 0 < now i) :
    delete_all_goals chatId (.ok items) now st
      = delete_all_goals chatId (.ok items) now st₂ ∧
    delete_all_goals chatId (.ok items) now st
      = .listGoals :: (delete_all_updates chatId now items 0 ++ [.refreshGoals]) ∧
    (delete_all_updates chatId now items 0).length = items.length ∧
    ∀ i g, items[i]? = some g →
      (delete_all_updates chatId now items 0)[i]?
          = some (.postUpdate (soft_delete_payload chatId g (now i))) ∧
      (soft_delete_payload chatId g (now i)).status = 1 ∧
      (soft_delete_payload chatId g (now i)).deletedAt ≠ 0 := by
  refine ⟨rfl, rfl, delete_all_updates_length chatId now items 0, ?_⟩
  intro i g hg
  refine ⟨?_, rfl, ?_⟩
  · rw [delete_all_updates_getElem, hg]
    simp
  · show now i ≠ 0
    exact Int.ne_of_gt (hnow i)

/-- Witness for C9: the spec's two-goal scenario; the trace is independent
of the (failing) statuses, both items receive soft-delete posts with
`status = 1` and a non-zero `deletedAt`, and a refresh follows. -/
theorem C9_delete_all_witness :
    delete_all_goals "room" (.ok [mkGoal "1", mkGoal "2"]) (fun _ => 1) (fun _ => 200)
      = delete_all_goals "room" (.ok [mkGoal "1", mkGoal "2"]) (fun _ => 1) (fun _ => 500) ∧
    (delete_all_updates "room" (fun _ => 1) [mkGoal "1", mkGoal "2"] 0).length = 2 ∧
    (delete_all_updates "room" (fun _ => 1) [mkGoal "1", mkGoal "2"] 0)[1]?
      = some (.postUpdate (soft_delete_payload "room" (mkGoal "2") 1)) ∧
    (soft_delete_payload "room" (mkGoal "2") 1).status = 1 ∧
    (soft_delete_payload "room" (mkGoal "2") 1).deletedAt ≠ 0 := by
  have h := C9_delete_all "room" [mkGoal "1", mkGoal "2"] (fun _ => 1)
    (fun _ => 200) (fun _ => 500) (fun _ => one_pos)
  exact ⟨h.1, h.2.2.1, h.2.2.2 1 (mkGoal "2") rfl⟩

end FanslyGoalManager
